import Mathlib

/-!
Verification of core invariants of the nanobot multi-channel conversational
agent runtime against its natural-language specification.  The definitions
below are shallow embeddings of the Python source:
  nanobot/agent/tools/base.py      (Tool, validate_params)
  nanobot/agent/tools/registry.py  (ToolRegistry.execute)
  nanobot/agent/loop.py            (AgentLoop._process_message and
                                    AgentLoop._process_system_message)
  nanobot/agent/context.py         (add_assistant_message, add_tool_result)
  nanobot/channels/base.py         (BaseChannel.is_allowed, _handle_message)
  nanobot/session/manager.py       (SessionManager.save / _load)
  nanobot/heartbeat/service.py     (_is_heartbeat_empty, HeartbeatService._tick)
  nanobot/utils/helpers.py         (safe_filename)
-/

namespace Nanobot

/-- JSON-like values as manipulated by the Python code.  Python treats
`bool` as a subclass of `int`; we keep booleans as a separate constructor
and model that subtyping explicitly in `jsonIsinstance` and `ratOfNum`.
Numbers distinguish `int` from `float` (as Python does); floats are
modelled as exact rationals, on which the code only performs order
comparisons. -/
inductive Json where
  | null : Json
  | bool : Bool → Json
  | int : Int → Json
  | num : Rat → Json
  | str : String → Json
  | arr : List Json → Json
  | obj : List (String × Json) → Json

/-- Numeric value of a Python object for arithmetic comparison purposes:
booleans coerce to 0/1, ints and floats to their value; everything else is
not a number. -/
def ratOfNum : Json → Option Rat
  | .bool b => some (if b then 1 else 0)
  | .int n => some (n : Rat)
  | .num q => some q
  | _ => none

/-- Dictionary lookup, mirroring Python `d.get(k)` on a JSON object given
as an insertion-ordered key/value list. -/
def jsonGet (kvs : List (String × Json)) (k : String) : Option Json :=
  (kvs.find? (fun kv => kv.1 == k)).map (fun kv => kv.2)

/-- Python truthiness of a JSON value (`if x:`). -/
def jsonTruthy : Json → Bool
  | .null => false
  | .bool b => b
  | .int n => decide (n ≠ 0)
  | .num q => decide (q ≠ 0)
  | .str s => s ≠ ""
  | .arr xs => !xs.isEmpty
  | .obj kvs => !kvs.isEmpty

mutual

/-- Python `==` on JSON values: numeric types (bool/int/float) compare by
numeric value, strings by content, lists elementwise, dicts by key lookup
and size; values of unrelated types are unequal. -/
def pyEq : Json → Json → Bool
  | .null, .null => true
  | .str a, .str b => a == b
  | .arr a, .arr b => pyEqList a b
  | .obj a, .obj b => a.length == b.length && pyEqObj a b
  | a, b =>
    match ratOfNum a, ratOfNum b with
    | some x, some y => decide (x = y)
    | _, _ => false

def pyEqList : List Json → List Json → Bool
  | [], [] => true
  | x :: xs, y :: ys => pyEq x y && pyEqList xs ys
  | _, _ => false

def pyEqObj : List (String × Json) → List (String × Json) → Bool
  | [], _ => true
  | (k, v) :: rest, b =>
    (match b.find? (fun kv => kv.1 == k) with
     | some kv => pyEq v kv.2
     | none => false) && pyEqObj rest b

end

mutual

/-- Structural equality of JSON values (the mathematical reading used by
the specification: a boolean is never equal to a number). -/
def jsonEqb : Json → Json → Bool
  | .null, .null => true
  | .bool a, .bool b => a == b
  | .int a, .int b => a == b
  | .num a, .num b => decide (a = b)
  | .str a, .str b => a == b
  | .arr a, .arr b => jsonEqbList a b
  | .obj a, .obj b => jsonEqbObj a b
  | _, _ => false

def jsonEqbList : List Json → List Json → Bool
  | [], [] => true
  | x :: xs, y :: ys => jsonEqb x y && jsonEqbList xs ys
  | _, _ => false

def jsonEqbObj : List (String × Json) → List (String × Json) → Bool
  | [], [] => true
  | (k, v) :: xs, (k2, v2) :: ys => k == k2 && jsonEqb v v2 && jsonEqbObj xs ys
  | _, _ => false

end

/-- Rendering of a schema number as Python would print it inside an
f-string; non-integral rationals are rendered as fractions (an
approximation of Python float printing, used only inside error-message
text, which no theorem inspects for enum/range messages). -/
def ratStr (q : Rat) : String :=
  if q.den == 1 then toString q.num else toString q.num ++ "/" ++ toString q.den

mutual

/-- Python `repr` of a JSON value (as interpolated into error messages by
f-strings such as `{schema['enum']}`).  String escaping inside repr is not
modelled; no theorem depends on this text. -/
def pyRepr : Json → String
  | .null => "None"
  | .bool b => if b then "True" else "False"
  | .int n => toString n
  | .num q => ratStr q
  | .str s => "'" ++ s ++ "'"
  | .arr xs => "[" ++ pyReprList xs ++ "]"
  | .obj kvs => "\x7b" ++ pyReprObj kvs ++ "\x7d"

def pyReprList : List Json → String
  | [] => ""
  | [x] => pyRepr x
  | x :: xs => pyRepr x ++ ", " ++ pyReprList xs

def pyReprObj : List (String × Json) → String
  | [] => ""
  | [(k, v)] => "'" ++ k ++ "': " ++ pyRepr v
  | (k, v) :: kvs => "'" ++ k ++ "': " ++ pyRepr v ++ ", " ++ pyReprObj kvs

end

/-- The projection of a JSON-Schema dictionary onto exactly the keys read
by `Tool._validate`: `type`, `enum`, `minimum`, `maximum`, `minLength`,
`maxLength`, `required`, `properties`, `items`.  A missing key is `none`
(`required` and `properties` default to empty, mirroring
`schema.get("required", [])` and `schema.get("properties", {})`). -/
inductive Schema where
  | mk : Option String → Option (List Json) → Option Rat → Option Rat →
         Option Int → Option Int → List String → List (String × Schema) →
         Option Schema → Schema

/-- The schema's `type` entry (`schema.get("type")`). -/
def Schema.typeOpt : Schema → Option String
  | .mk t _ _ _ _ _ _ _ _ => t

/-- The schema's `enum` entry. -/
def Schema.enumOpt : Schema → Option (List Json)
  | .mk _ e _ _ _ _ _ _ _ => e

/-- The schema's `minimum` entry. -/
def Schema.minimumOpt : Schema → Option Rat
  | .mk _ _ mn _ _ _ _ _ _ => mn

/-- The schema's `maximum` entry. -/
def Schema.maximumOpt : Schema → Option Rat
  | .mk _ _ _ mx _ _ _ _ _ => mx

/-- The schema's `minLength` entry. -/
def Schema.minLengthOpt : Schema → Option Int
  | .mk _ _ _ _ ml _ _ _ _ => ml

/-- The schema's `maxLength` entry. -/
def Schema.maxLengthOpt : Schema → Option Int
  | .mk _ _ _ _ _ ml _ _ _ => ml

/-- The schema's `required` list (`schema.get("required", [])`). -/
def Schema.requiredKeys : Schema → List String
  | .mk _ _ _ _ _ _ r _ _ => r

/-- The schema's `properties` map (`schema.get("properties", {})`). -/
def Schema.propsList : Schema → List (String × Schema)
  | .mk _ _ _ _ _ _ _ p _ => p

/-- The schema's `items` entry. -/
def Schema.itemsOpt : Schema → Option Schema
  | .mk _ _ _ _ _ _ _ _ i => i

/-- The schema with its `type` key overwritten by `"object"`, mirroring
`{**schema, "type": "object"}` in `validate_params`. -/
def Schema.withTypeObject : Schema → Schema
  | .mk _ e mn mx mnl mxl req props items =>
    .mk (some "object") e mn mx mnl mxl req props items

/-- Test `t in Tool._TYPE_MAP` for `t = schema.get("type")`. -/
def inTypeMap (t : Option String) : Bool :=
  match t with
  | some s => ["string", "integer", "number", "boolean", "array", "object"].contains s
  | none => false

/-- Python `isinstance(val, Tool._TYPE_MAP[t])`.  Note that in Python
`bool` is a subclass of `int`, so a boolean passes the `integer` and
`number` checks. -/
def jsonIsinstance : String → Json → Bool
  | "string", .str _ => true
  | "integer", .int _ => true
  | "integer", .bool _ => true
  | "number", .int _ => true
  | "number", .num _ => true
  | "number", .bool _ => true
  | "boolean", .bool _ => true
  | "array", .arr _ => true
  | "object", .obj _ => true
  | _, _ => false

/-- Whether a JSON value has the declared JSON type, per the
specification's reading (a boolean is a boolean, never an integer or a
number; contrast with `jsonIsinstance`). -/
def specTypeMatches : String → Json → Bool
  | "string", .str _ => true
  | "integer", .int _ => true
  | "number", .int _ => true
  | "number", .num _ => true
  | "boolean", .bool _ => true
  | "array", .arr _ => true
  | "object", .obj _ => true
  | _, _ => false

/-- Error-message path for a child property, `path + '.' + k if path else k`. -/
def childPath (path k : String) : String :=
  if path == "" then k else path ++ "." ++ k

/-- The error label of `Tool._validate`: `path or "parameter"`. -/
def labelOf (path : String) : String :=
  if path == "" then "parameter" else path

/-- Error-message path for an array element, `f"{path}[{i}]"`. -/
def indexPath (path : String) (i : Nat) : String :=
  path ++ "[" ++ toString i ++ "]"

/-- The `enum` check of `Tool._validate`:
`if "enum" in schema and val not in schema["enum"]`. -/
def enumErrors (val : Json) (s : Schema) (label : String) : List String :=
  match s.enumOpt with
  | some es =>
    if es.any (fun e => pyEq e val) then []
    else [label ++ " must be one of [" ++ pyReprList es ++ "]"]
  | none => []

/-- The `minimum`/`maximum` checks of `Tool._validate`, performed when the
declared type is `integer` or `number`. -/
def rangeErrors (val : Json) (s : Schema) (label : String) : List String :=
  if s.typeOpt == some "integer" || s.typeOpt == some "number" then
    (match s.minimumOpt with
     | some m =>
       if decide ((ratOfNum val).getD 0 < m) then
         [label ++ " must be >= " ++ ratStr m]
       else []
     | none => []) ++
    (match s.maximumOpt with
     | some m =>
       if decide (m < (ratOfNum val).getD 0) then
         [label ++ " must be <= " ++ ratStr m]
       else []
     | none => [])
  else []

/-- The `minLength`/`maxLength` checks of `Tool._validate`, performed when
the declared type is `string`. -/
def lengthErrors (val : Json) (s : Schema) (label : String) : List String :=
  if s.typeOpt == some "string" then
    match val with
    | .str sv =>
      (match s.minLengthOpt with
       | some m =>
         if decide ((sv.length : Int) < m) then
           [label ++ " must be at least " ++ toString m ++ " chars"]
         else []
       | none => []) ++
      (match s.maxLengthOpt with
       | some m =>
         if decide (m < (sv.length : Int)) then
           [label ++ " must be at most " ++ toString m ++ " chars"]
         else []
       | none => [])
    | _ => []
  else []

/-- The `required` check of `Tool._validate`:
`for k in schema.get("required", []): if k not in val`. -/
def requiredErrors (kvs : List (String × Json)) (s : Schema) (path : String) :
    List String :=
  s.requiredKeys.filterMap fun k =>
    if kvs.any (fun kv => kv.1 == k) then none
    else some ("missing required " ++ childPath path k)

mutual

/-- Embedding of `Tool._validate(val, schema, path)` from
`nanobot/agent/tools/base.py`: a failed type check returns a single error
immediately; otherwise the enum, range, length, required/properties and
items checks accumulate errors in source order. -/
def pyValidate (val : Json) (s : Schema) (path : String) : List String :=
  if inTypeMap s.typeOpt && !(jsonIsinstance (s.typeOpt.getD "") val) then
    [labelOf path ++ " should be " ++ s.typeOpt.getD ""]
  else
    enumErrors val s (labelOf path) ++
    rangeErrors val s (labelOf path) ++
    lengthErrors val s (labelOf path) ++
    (if s.typeOpt == some "object" then
       match val with
       | .obj kvs => requiredErrors kvs s path ++ pyValidateFields kvs s.propsList path
       | _ => []
     else []) ++
    (if s.typeOpt == some "array" then
       match s.itemsOpt, val with
       | some sub, .arr xs => pyValidateItems xs sub path 0
       | _, _ => []
     else [])

/-- The `for k, v in val.items(): if k in props:` recursion of
`Tool._validate`. -/
def pyValidateFields (kvs : List (String × Json)) (props : List (String × Schema))
    (path : String) : List String :=
  match kvs with
  | [] => []
  | (k, v) :: rest =>
    (match props.find? (fun p => p.1 == k) with
     | some p => pyValidate v p.2 (childPath path k)
     | none => []) ++ pyValidateFields rest props path

/-- The `for i, item in enumerate(val):` recursion of `Tool._validate`. -/
def pyValidateItems (xs : List Json) (sub : Schema) (path : String) (i : Nat) :
    List String :=
  match xs with
  | [] => []
  | x :: rest => pyValidate x sub (indexPath path i) ++ pyValidateItems rest sub path (i + 1)

end

/-- The `enum` constraint as a satisfaction predicate (Python equality). -/
def enumOk (val : Json) (s : Schema) : Bool :=
  match s.enumOpt with
  | some es => es.any (fun e => pyEq e val)
  | none => true

/-- The `minimum`/`maximum` constraints as a satisfaction predicate. -/
def rangeOk (val : Json) (s : Schema) : Bool :=
  if s.typeOpt == some "integer" || s.typeOpt == some "number" then
    (match s.minimumOpt with
     | some m => decide (m ≤ (ratOfNum val).getD 0)
     | none => true) &&
    (match s.maximumOpt with
     | some m => decide ((ratOfNum val).getD 0 ≤ m)
     | none => true)
  else true

/-- The `minLength`/`maxLength` constraints as a satisfaction predicate. -/
def lengthOk (val : Json) (s : Schema) : Bool :=
  if s.typeOpt == some "string" then
    match val with
    | .str sv =>
      (match s.minLengthOpt with
       | some m => decide (m ≤ (sv.length : Int))
       | none => true) &&
      (match s.maxLengthOpt with
       | some m => decide ((sv.length : Int) ≤ m)
       | none => true)
    | _ => true
  else true

/-- The `required` constraint as a satisfaction predicate. -/
def requiredOk (kvs : List (String × Json)) (s : Schema) : Bool :=
  s.requiredKeys.all fun k => kvs.any (fun kv => kv.1 == k)

mutual

/-- An object satisfies every constraint declared in the schema, under the
semantics the Python validator actually implements: the declared-type check
uses `isinstance` (so a boolean counts as an integer and as a number) and
enum membership uses Python equality.  This is the satisfaction predicate
that `Tool._validate` decides (proved below). -/
def pySat (val : Json) (s : Schema) : Bool :=
  (!(inTypeMap s.typeOpt) || jsonIsinstance (s.typeOpt.getD "") val) &&
  enumOk val s &&
  rangeOk val s &&
  lengthOk val s &&
  (if s.typeOpt == some "object" then
     match val with
     | .obj kvs => requiredOk kvs s && pySatFields kvs s.propsList
     | _ => true
   else true) &&
  (if s.typeOpt == some "array" then
     match s.itemsOpt, val with
     | some sub, .arr xs => pySatItems xs sub
     | _, _ => true
   else true)

def pySatFields (kvs : List (String × Json)) (props : List (String × Schema)) : Bool :=
  match kvs with
  | [] => true
  | (k, v) :: rest =>
    (match props.find? (fun p => p.1 == k) with
     | some p => pySat v p.2
     | none => true) && pySatFields rest props

def pySatItems (xs : List Json) (sub : Schema) : Bool :=
  match xs with
  | [] => true
  | x :: rest => pySat x sub && pySatItems rest sub

end

mutual

/-- An object satisfies every constraint declared in the schema, read as
the specification states it: the declared type is the JSON type of the
value (a boolean is not an integer nor a number), enum membership is
structural equality; the remaining constraints are as in the code. -/
def specSat (val : Json) (s : Schema) : Bool :=
  (!(inTypeMap s.typeOpt) || specTypeMatches (s.typeOpt.getD "") val) &&
  (match s.enumOpt with
   | some es => es.any (fun e => jsonEqb e val)
   | none => true) &&
  rangeOk val s &&
  lengthOk val s &&
  (if s.typeOpt == some "object" then
     match val with
     | .obj kvs => requiredOk kvs s && specSatFields kvs s.propsList
     | _ => true
   else true) &&
  (if s.typeOpt == some "array" then
     match s.itemsOpt, val with
     | some sub, .arr xs => specSatItems xs sub
     | _, _ => true
   else true)

def specSatFields (kvs : List (String × Json)) (props : List (String × Schema)) : Bool :=
  match kvs with
  | [] => true
  | (k, v) :: rest =>
    (match props.find? (fun p => p.1 == k) with
     | some p => specSat v p.2
     | none => true) && specSatFields rest props

def specSatItems (xs : List Json) (sub : Schema) : Bool :=
  match xs with
  | [] => true
  | x :: rest => specSat x sub && specSatItems rest sub

end

/-- A tool, per `nanobot/agent/tools/base.py`: a name, a description, a
JSON-Schema for its parameters and a body.  The body may raise; a raised
exception is modelled as `Except.error` carrying `str(e)`. -/
structure Tool where
  name : String
  description : String
  parameters : Schema
  execute : List (String × Json) → Except String String

/-- Python `repr` of an optional string (`{schema.get('type')!r}`). -/
def reprOptStr : Option String → String
  | none => "None"
  | some s => "'" ++ s ++ "'"

/-- Embedding of `Tool.validate_params`: raises (models `ValueError`) when
the schema's root type is declared and is not `"object"`; otherwise
validates against the schema with its `type` key forced to `"object"`. -/
def Tool.validate_params (t : Tool) (params : List (String × Json)) :
    Except String (List String) :=
  let schema := t.parameters
  if ((schema.typeOpt).getD "object") != "object" then
    Except.error ("Schema must be object type, got " ++ reprOptStr schema.typeOpt)
  else
    Except.ok (pyValidate (Json.obj params) schema.withTypeObject "")

/-- The tool registry, `nanobot/agent/tools/registry.py`: a name-keyed
collection of tools (keys are unique in Python's dict; lookup below is by
name). -/
structure ToolRegistry where
  tools : List Tool

/-- Embedding of `ToolRegistry.get`. -/
def ToolRegistry.get (reg : ToolRegistry) (name : String) : Option Tool :=
  reg.tools.find? (fun t => t.name == name)

/-- Embedding of `ToolRegistry.execute`: validates, then runs the body;
every failure is rendered as an error string, never an exception (the
function is total). -/
def ToolRegistry.execute (reg : ToolRegistry) (name : String)
    (params : List (String × Json)) : String :=
  match reg.get name with
  | none => "Error: Tool '" ++ name ++ "' not found"
  | some tool =>
    match tool.validate_params params with
    | Except.error e => "Error executing " ++ name ++ ": " ++ e
    | Except.ok errors =>
      if !errors.isEmpty then
        "Error: Invalid parameters for tool '" ++ name ++ "': " ++
          String.intercalate "; " errors
      else
        match tool.execute params with
        | Except.ok result => result
        | Except.error e => "Error executing " ++ name ++ ": " ++ e

/-- JSON string escaping for `json.dumps` (quote, backslash and the common
control characters; `\uXXXX` escaping of other code points is not
modelled — no theorem inspects dumped text). -/
def escapeJsonString (s : String) : String :=
  s.foldl (fun acc c =>
    if c = '"' then acc ++ "\\\""
    else if c = '\\' then acc ++ "\\\\"
    else if c = '\n' then acc ++ "\\n"
    else if c = '\t' then acc ++ "\\t"
    else if c = '\r' then acc ++ "\\r"
    else acc.push c) ""

mutual

/-- Python `json.dumps` with its default separators. -/
def jsonDumps : Json → String
  | .null => "null"
  | .bool b => if b then "true" else "false"
  | .int n => toString n
  | .num q => ratStr q
  | .str s => "\"" ++ escapeJsonString s ++ "\""
  | .arr xs => "[" ++ jsonDumpsList xs ++ "]"
  | .obj kvs => "\x7b" ++ jsonDumpsObj kvs ++ "\x7d"

def jsonDumpsList : List Json → String
  | [] => ""
  | [x] => jsonDumps x
  | x :: xs => jsonDumps x ++ ", " ++ jsonDumpsList xs

def jsonDumpsObj : List (String × Json) → String
  | [] => ""
  | [(k, v)] => "\"" ++ escapeJsonString k ++ "\": " ++ jsonDumps v
  | (k, v) :: kvs =>
    "\"" ++ escapeJsonString k ++ "\": " ++ jsonDumps v ++ ", " ++ jsonDumpsObj kvs

end

/-- Inbound message envelope, `nanobot/bus/events.py` (the timestamp field
plays no role in any verified property and is omitted). -/
structure InboundMessage where
  channel : String
  sender_id : String
  chat_id : String
  content : String
  media : List String := []
  metadata : List (String × Json) := []

/-- The `session_key` property: `f"{self.channel}:{self.chat_id}"`. -/
def InboundMessage.session_key (m : InboundMessage) : String :=
  m.channel ++ ":" ++ m.chat_id

/-- Outbound message envelope, `nanobot/bus/events.py`. -/
structure OutboundMessage where
  channel : String
  chat_id : String
  content : String
  reply_to : Option String := none
  media : List String := []
  metadata : List (String × Json) := []

/-- Tool-call request issued by the LLM, `nanobot/providers/base.py`. -/
structure ToolCallRequest where
  id : String
  name : String
  arguments : List (String × Json)

/-- LLM provider response, `nanobot/providers/base.py` (usage statistics
omitted). -/
structure LLMResponse where
  content : Option String
  tool_calls : List ToolCallRequest := []
  finish_reason : String := "stop"
  reasoning_content : Option String := none

/-- The `has_tool_calls` property: `len(self.tool_calls) > 0`. -/
def LLMResponse.has_tool_calls (r : LLMResponse) : Bool :=
  r.tool_calls.length > 0

/-- Embedding of `ContextBuilder.add_tool_result`: appends the tool-result
record. -/
def add_tool_result (messages : List Json) (tool_call_id : String)
    (tool_name : String) (result : String) : List Json :=
  messages ++ [Json.obj
    [("role", .str "tool"), ("tool_call_id", .str tool_call_id),
     ("name", .str tool_name), ("content", .str result)]]

/-- Embedding of `ContextBuilder.add_assistant_message`: content defaults
to the empty string (`content or ""`); `tool_calls` is attached when the
list is non-empty and `reasoning_content` when it is a non-empty string
(Python truthiness). -/
def add_assistant_message (messages : List Json) (content : Option String)
    (tool_calls : List Json) (reasoning_content : Option String) : List Json :=
  let base := [("role", Json.str "assistant"), ("content", Json.str (content.getD ""))]
  let withTc := if tool_calls.isEmpty then base else base ++ [("tool_calls", Json.arr tool_calls)]
  let withRc :=
    match reasoning_content with
    | some rc => if rc == "" then withTc else withTc ++ [("reasoning_content", Json.str rc)]
    | none => withTc
  messages ++ [Json.obj withRc]

/-- The per-tool-call dictionary the agent loop appends to the assistant
message (`AgentLoop._process_message`): the arguments are re-serialized as
a JSON string. -/
def toolCallDict (tc : ToolCallRequest) : Json :=
  Json.obj
    [("id", .str tc.id), ("type", .str "function"),
     ("function", .obj
        [("name", .str tc.name),
         ("arguments", .str (jsonDumps (Json.obj tc.arguments)))])]

/-- The agent loop's environment: the LLM provider (a function of the
submitted message list; tools and model are fixed over a run), the tool
registry, the iteration bound, the context builder and the session
history.  `build_messages` and `get_history` involve file I/O in the
source (`ContextBuilder.build_messages`, `SessionManager.get_or_create`)
and are abstract here; their results only feed the provider. -/
structure AgentEnv where
  provider : List Json → LLMResponse
  tools : ToolRegistry
  max_iterations : Nat
  build_messages : List Json → String → List String → String → String → List Json
  get_history : String → List Json

/-- One run of the bounded turn-taking loop of
`AgentLoop._process_message` (lines 227-267), starting with `fuel`
remaining iterations: each iteration calls the provider once; a response
with tool calls appends the assistant message and one tool-result per
call, then continues; a response without tool calls ends the loop with its
content.  Returns the final content (`none` when the bound is exhausted or
the terminal response content is `None`) and the number of provider
calls made. -/
def agentIterate (env : AgentEnv) (messages : List Json) (fuel : Nat)
    (calls : Nat) : Option String × Nat :=
  match fuel with
  | 0 => (none, calls)
  | Nat.succ fuel1 =>
    let response := env.provider messages
    if response.has_tool_calls then
      let tcDicts := response.tool_calls.map toolCallDict
      let messages1 := add_assistant_message messages response.content tcDicts
        response.reasoning_content
      let messages2 := response.tool_calls.foldl
        (fun ms tc => add_tool_result ms tc.id tc.name
          (ToolRegistry.execute env.tools tc.name tc.arguments))
        messages1
      agentIterate env messages2 fuel1 (calls + 1)
    else (response.content, calls + 1)

/-- The observable outcome of processing one inbound message: the session
used, the number of provider calls, the `(role, content)` pairs appended
to the session, and the outbound reply. -/
structure ProcessResult where
  session_key : String
  provider_calls : Nat
  appended : List (String × String)
  outbound : OutboundMessage

/-- Python `c in s` for a single character. -/
def containsChar (s : String) (c : Char) : Bool :=
  s.data.contains c

/-- Splits a character list at the first occurrence of `c`; `none` when
`c` does not occur. -/
def breakAtChar : List Char → Char → Option (List Char × List Char)
  | [], _ => none
  | d :: ds, c =>
    if d = c then some ([], ds)
    else
      match breakAtChar ds c with
      | some (pre, post) => some (d :: pre, post)
      | none => none

/-- Python `s.split(c, 1)` for a single-character separator, packaged as
(head, rest); a string without the separator keeps everything in the
head. -/
def splitFirst (s : String) (c : Char) : String × String :=
  match breakAtChar s.data c with
  | some (pre, post) => (String.mk pre, String.mk post)
  | none => (s, "")

/-- Python `s.split(c)` on character lists. -/
def splitCharList : List Char → Char → List (List Char)
  | [], _ => [[]]
  | d :: ds, c =>
    if d = c then [] :: splitCharList ds c
    else
      match splitCharList ds c with
      | pre :: rest => (d :: pre) :: rest
      | [] => [[d]]

/-- Python `s.split(c)` for a single-character separator (`"".split(c)` is
`[""]`). -/
def splitChar (s : String) (c : Char) : List String :=
  (splitCharList s.data c).map String.mk

/-- Python `s.strip()`: leading and trailing whitespace removed. -/
def pyStrip (s : String) : String :=
  String.mk (((s.data.dropWhile Char.isWhitespace).reverse.dropWhile
    Char.isWhitespace).reverse)

/-- Python `s.startswith(pre)`. -/
def pyStartsWith (s pre : String) : Bool :=
  pre.data.isPrefixOf s.data

/-- Embedding of `AgentLoop._process_system_message`: the origin channel
and chat id are decoded from `chat_id` at its first `:` (falling back to
channel `"cli"` and the whole `chat_id` when it contains none); the reply
is routed to that origin.  The outbound carries no metadata. -/
def processSystemMessage (env : AgentEnv) (msg : InboundMessage) : ProcessResult :=
  let origin :=
    if containsChar msg.chat_id ':' then splitFirst msg.chat_id ':'
    else ("cli", msg.chat_id)
  let origin_channel := origin.1
  let origin_chat_id := origin.2
  let key := origin_channel ++ ":" ++ origin_chat_id
  let messages := env.build_messages (env.get_history key) msg.content []
    origin_channel origin_chat_id
  let r := agentIterate env messages env.max_iterations 0
  let final_content := r.1.getD "Background task completed."
  { session_key := key
    provider_calls := r.2
    appended :=
      [("user", "[System: " ++ msg.sender_id ++ "] " ++ msg.content),
       ("assistant", final_content)]
    outbound :=
      { channel := origin_channel, chat_id := origin_chat_id,
        content := final_content } }

/-- Embedding of `AgentLoop._process_message`: system messages are
delegated to `processSystemMessage`; otherwise the session is the
inbound's `session_key`, the turn-taking loop runs with at most
`max_iterations` provider calls, a missing final content falls back to a
fixed string, and the reply targets the inbound's channel and chat id
with the inbound metadata passed through. -/
def processMessage (env : AgentEnv) (msg : InboundMessage) : ProcessResult :=
  if msg.channel == "system" then processSystemMessage env msg
  else
    let key := msg.session_key
    let messages := env.build_messages (env.get_history key) msg.content msg.media
      msg.channel msg.chat_id
    let r := agentIterate env messages env.max_iterations 0
    let final_content := r.1.getD "I've completed processing but have no response to give."
    { session_key := key
      provider_calls := r.2
      appended := [("user", msg.content), ("assistant", final_content)]
      outbound :=
        { channel := msg.channel, chat_id := msg.chat_id,
          content := final_content, metadata := msg.metadata } }

/-- Embedding of `BaseChannel.is_allowed`: an empty allow-list admits
everyone; otherwise the sender id must be listed, or — when it is a
composite id joined by `|` — some non-empty component must be listed. -/
def is_allowed (allow_from : List String) (sender_id : String) : Bool :=
  if allow_from.isEmpty then true
  else if allow_from.contains sender_id then true
  else if containsChar sender_id '|' then
    (splitChar sender_id '|').any (fun part => part != "" && allow_from.contains part)
  else false

/-- Embedding of `BaseChannel._handle_message`: when the sender is
allowed, an `InboundMessage` is built and published to the bus (returned
as `some`); otherwise nothing is published. -/
def handle_message (allow_from : List String) (channelName : String)
    (sender_id chat_id content : String) (media : Option (List String))
    (metadata : Option (List (String × Json))) : Option InboundMessage :=
  if is_allowed allow_from sender_id then
    some
      { channel := channelName, sender_id := sender_id, chat_id := chat_id,
        content := content, media := media.getD [], metadata := metadata.getD [] }
  else none

/-- The fixed prompt injected on a live heartbeat tick,
`nanobot/heartbeat/service.py`. -/
def HEARTBEAT_PROMPT : String :=
  "Read HEARTBEAT.md in your workspace (if it exists).\nFollow any instructions or tasks listed there.\nIf nothing needs attention, reply with just: HEARTBEAT_OK"

/-- The `skip_patterns` set of `_is_heartbeat_empty`: empty and checked
checkbox markers. -/
def skipPatterns : List String := ["- [ ]", "* [ ]", "- [x]", "* [x]"]

/-- The line scan of `_is_heartbeat_empty`: skip blank lines, `#`-prefixed
lines, HTML comments and bare checkbox markers; any other line means the
file has actionable content (`return False`). -/
def heartbeatScan : List String → Bool
  | [] => true
  | l :: ls =>
    let line := pyStrip l
    if line == "" || pyStartsWith line "#" || pyStartsWith line "<!--" ||
        skipPatterns.contains line then
      heartbeatScan ls
    else false

/-- Embedding of `_is_heartbeat_empty(content)`; `none` models a missing
or unreadable file and the empty string is falsy (`if not content`). -/
def isHeartbeatEmpty (content : Option String) : Bool :=
  match content with
  | none => true
  | some c => if c == "" then true else heartbeatScan (splitChar c '\n')

/-- Embedding of `HeartbeatService._tick` with an `on_heartbeat` callback
present (without one the tick never injects anything): returns the prompt
injected to the agent, or `none` when the heartbeat file has no actionable
content. -/
def heartbeatTick (content : Option String) : Option String :=
  if isHeartbeatEmpty content then none else some HEARTBEAT_PROMPT

/-- The unsafe file-name characters of `safe_filename`. -/
def unsafeChars : List Char := ['<', '>', ':', '"', '/', '\\', '|', '?', '*']

/-- Python `s.replace(c, "_")` for a single-character pattern: every
occurrence of `c` becomes an underscore. -/
def charReplace (s : String) (c : Char) : String :=
  String.mk (s.data.map fun d => if d = c then '_' else d)

/-- Embedding of `safe_filename` from `nanobot/utils/helpers.py`: each
unsafe character is replaced by `_` and surrounding whitespace is
stripped. -/
def safe_filename (name : String) : String :=
  pyStrip (unsafeChars.foldl (fun acc c => charReplace acc c) name)

/-- Embedding of `SessionManager._get_session_path`, as the file name it
produces: `safe_filename(key.replace(":", "_")) + ".jsonl"`. -/
def sessionFileName (key : String) : String :=
  safe_filename (charReplace key ':') ++ ".jsonl"

/-- Removal of a set of characters from a string. -/
def stripChars (s : String) (cs : List Char) : String :=
  String.mk (s.data.filter fun d => !cs.contains d)

/-- The session file name as the specification words it: replace `:` with
`_` and strip (remove) the characters `<>:"/\|?*`, then append
`.jsonl`. -/
def specSessionFileName (key : String) : String :=
  stripChars (charReplace key ':') unsafeChars ++ ".jsonl"

/-- A wall-clock timestamp, identified with its ISO rendering
(`datetime.isoformat` / `datetime.fromisoformat` are mutually inverse on
the values the code produces). -/
structure DateTime where
  iso : String

/-- A conversation session, `nanobot/session/manager.py`.  Message records
are arbitrary JSON dictionaries (`add_message` builds
`{role, content, timestamp, **kwargs}`); `metadata` is the JSON value
stored on the metadata line. -/
structure Session where
  key : String
  messages : List Json
  created_at : DateTime
  updated_at : DateTime
  metadata : Json

/-- Embedding of `SessionManager.save`: the written file, one JSON record
per line — a metadata record first, then every message in order. -/
def SessionManager.save (s : Session) : List Json :=
  Json.obj
    [("_type", .str "metadata"), ("created_at", .str s.created_at.iso),
     ("updated_at", .str s.updated_at.iso), ("metadata", s.metadata)]
  :: s.messages

/-- One iteration of the `for line in f:` loop of `SessionManager._load`:
a record whose `_type` is `"metadata"` resets the metadata and creation
timestamp; any other dictionary is appended as a message.  A non-dictionary
record or a truthy non-string `created_at` raises in Python
(`AttributeError` / `fromisoformat` failure), which the enclosing `try`
turns into a failed load — modelled as `none`. -/
def loadStep (acc : List Json × Json × Option DateTime) (line : Json) :
    Option (List Json × Json × Option DateTime) :=
  match line with
  | Json.obj kvs =>
    if (jsonGet kvs "_type").any (fun v => pyEq v (Json.str "metadata")) then
      let md := (jsonGet kvs "metadata").getD (Json.obj [])
      match jsonGet kvs "created_at" with
      | some v =>
        if jsonTruthy v then
          match v with
          | Json.str isoStr => some (acc.1, md, some ⟨isoStr⟩)
          | _ => none
        else some (acc.1, md, none)
      | none => some (acc.1, md, none)
    else some (acc.1 ++ [line], acc.2.1, acc.2.2)
  | _ => none

/-- Embedding of `SessionManager._load`: folds `loadStep` over the file's
records; on success the session carries the parsed messages and metadata,
`created_at` falling back to the current time (`created_at or
datetime.now()`), `updated_at` freshly defaulted. -/
def SessionManager.load (key : String) (lines : List Json) (now : DateTime) :
    Option Session :=
  (lines.foldlM loadStep ([], Json.obj [], none)).map fun acc =>
    { key := key, messages := acc.1, created_at := acc.2.2.getD now,
      updated_at := now, metadata := acc.2.1 }

/-- A message record that `_load` will read back as a message: a JSON
dictionary whose `_type` entry (if any) is not the string
`"metadata"`. -/
def isPlainMessageRecord : Json → Bool
  | Json.obj kvs =>
    match jsonGet kvs "_type" with
    | some v => !(pyEq v (Json.str "metadata"))
    | none => true
  | _ => false

/-- A session file record with its `created_at`/`updated_at` entries
blanked, for byte-for-byte-modulo-timestamps comparison of the leading
metadata record. -/
def stripTimestampFields (record : Json) : Json :=
  match record with
  | Json.obj kvs =>
    Json.obj (kvs.map fun kv =>
      if kv.1 == "created_at" || kv.1 == "updated_at" then (kv.1, Json.null) else kv)
  | other => other

/-- Two saved session files agree byte-for-byte modulo the timestamps on
the leading metadata record: the first records are equal after blanking
`created_at`/`updated_at`, and the remaining lines (the message records)
are identical. -/
def sameModuloTimestamps : List Json → List Json → Prop
  | a :: la, b :: lb => stripTimestampFields a = stripTimestampFields b ∧ la = lb
  | [], [] => True
  | _, _ => False

/-- The claim-side classification of a heartbeat line: actionable when,
after stripping, it is non-blank, not a comment (a `#` heading or an HTML
comment) and not a bare checkbox marker (a checkbox, checked or unchecked,
with no task text). -/
def heartbeatActionableLine (l : String) : Bool :=
  let line := pyStrip l
  !(line == "" || pyStartsWith line "#" || pyStartsWith line "<!--" ||
    skipPatterns.contains line)

/-- The lines of the heartbeat file (`content.split("\n")`); a missing
file has none. -/
def heartbeatLines : Option String → List String
  | none => []
  | some c => splitChar c '\n'

/-- The session file name as the code builds it, re-expressed as a single
character map: every character of `<>:"/\|?*` becomes `_`, surrounding
whitespace is trimmed, and `.jsonl` is appended. -/
def replacedFileName (key : String) : String :=
  pyStrip (String.mk (key.data.map fun c => if unsafeChars.contains c then '_' else c))
    ++ ".jsonl"

/-- A provider stub that always answers with plain content and no tool
calls. -/
def stubEnv : AgentEnv where
  provider := fun _ => { content := some "done" }
  tools := ⟨[]⟩
  max_iterations := 20
  build_messages := fun _ _ _ _ _ => []
  get_history := fun _ => []

/-- A provider stub that always requests another tool call and never
produces a terminal response. -/
def loopingEnv : AgentEnv where
  provider := fun _ => { content := none, tool_calls := [⟨"call-1", "echo", []⟩] }
  tools := ⟨[]⟩
  max_iterations := 3
  build_messages := fun _ _ _ _ _ => []
  get_history := fun _ => []

/-- A plain user inbound message. -/
def sampleInbound : InboundMessage where
  channel := "telegram"
  sender_id := "alice"
  chat_id := "42"
  content := "hello"
  metadata := [("thread_ts", Json.str "99")]

/-- A sub-agent completion notification with a composite origin in
`chat_id` and adapter metadata attached. -/
def systemInbound : InboundMessage where
  channel := "system"
  sender_id := "subagent"
  chat_id := "telegram:42"
  content := "task finished"
  metadata := [("thread_ts", Json.str "123")]

/-- A system message whose `chat_id` carries no `:` separator. -/
def systemPlainInbound : InboundMessage where
  channel := "system"
  sender_id := "subagent"
  chat_id := "direct"
  content := "task finished"

/-- JSON-Schema of a tool taking one required string parameter `text`. -/
def echoParamsSchema : Schema :=
  .mk (some "object") none none none none none ["text"]
    [("text", .mk (some "string") none none none none none [] [] none)] none

/-- A concrete echo tool. -/
def echoTool : Tool where
  name := "echo"
  description := "Echo the text back."
  parameters := echoParamsSchema
  execute := fun params =>
    match jsonGet params "text" with
    | some (Json.str s) => Except.ok s
    | _ => Except.error "missing text"

/-- JSON-Schema of a tool taking one required integer parameter `x`. -/
def intParamSchema : Schema :=
  .mk (some "object") none none none none none ["x"]
    [("x", .mk (some "integer") none none none none none [] [] none)] none

/-- A concrete tool with one integer parameter. -/
def intParamTool : Tool where
  name := "count"
  description := "Takes one integer."
  parameters := intParamSchema
  execute := fun _ => Except.ok "ok"

/-- A concrete timestamp. -/
def sampleDateTime : DateTime := ⟨"2024-01-01T00:00:00"⟩

/-- An ordinary session with one plain message record. -/
def plainSession : Session where
  key := "telegram:42"
  messages := [Json.obj [("role", Json.str "user"), ("content", Json.str "hi"),
    ("timestamp", Json.str "2024-01-01T00:00:01")]]
  created_at := sampleDateTime
  updated_at := sampleDateTime
  metadata := Json.obj []

/-- A session holding one message record whose `_type` entry is the string
`"metadata"` (such a record is legal for `save`, which serializes messages
verbatim). -/
def trickySession : Session where
  key := "cli:direct"
  messages := [Json.obj [("_type", Json.str "metadata")]]
  created_at := sampleDateTime
  updated_at := sampleDateTime
  metadata := Json.obj []

/-! ## Theorems -/

theorem agentIterate_calls_le (env : AgentEnv) :
    ∀ (fuel : Nat) (messages : List Json) (calls : Nat),
      (agentIterate env messages fuel calls).2 ≤ calls + fuel := by
  intro fuel
  induction fuel with
  | zero => intro ms calls; simp [agentIterate]
  | succ n ih =>
    intro ms calls
    by_cases h : (env.provider ms).has_tool_calls = true
    · simp only [agentIterate, h, if_true]
      have := ih (add_assistant_message ms (env.provider ms).content
        ((env.provider ms).tool_calls.map toolCallDict) (env.provider ms).reasoning_content
        |> (env.provider ms).tool_calls.foldl
          (fun msacc tc => add_tool_result msacc tc.id tc.name
            (ToolRegistry.execute env.tools tc.name tc.arguments))) (calls + 1)
      omega
    · simp only [Bool.not_eq_true] at h
      simp only [agentIterate, h, Bool.false_eq_true, if_false]
      omega

theorem agentIterate_exhaust (env : AgentEnv)
    (h : ∀ ms, (env.provider ms).has_tool_calls = true) :
    ∀ (fuel : Nat) (messages : List Json) (calls : Nat),
      agentIterate env messages fuel calls = (none, calls + fuel) := by
  intro fuel
  induction fuel with
  | zero => intro ms calls; simp [agentIterate]
  | succ n ih =>
    intro ms calls
    simp only [agentIterate, h ms, if_true]
    rw [ih]
    congr 1
    omega

/-- C1: every outbound the agent loop emits targets the channel and chat
id of the originating inbound; for an inbound on channel `"system"` whose
`chat_id` has the composite form `origin_channel:origin_chat_id`, it
targets the origin decoded at the first `:` (`chat_id.split(":", 1)`). -/
theorem outbound_routing (env : AgentEnv) (msg : InboundMessage) :
    (msg.channel ≠ "system" →
      (processMessage env msg).outbound.channel = msg.channel ∧
      (processMessage env msg).outbound.chat_id = msg.chat_id) ∧
    (msg.channel = "system" → containsChar msg.chat_id ':' = true →
      (processMessage env msg).outbound.channel = (splitFirst msg.chat_id ':').1 ∧
      (processMessage env msg).outbound.chat_id = (splitFirst msg.chat_id ':').2) := by
  constructor
  · intro h
    have hb : (msg.channel == "system") = false := by
      simpa using h
    simp [processMessage, hb]
  · intro h hc
    have hb : (msg.channel == "system") = true := by simp [h]
    simp [processMessage, hb, processSystemMessage, hc]

/-- C1 witness: a concrete non-system inbound is answered on its own
channel and chat id. -/
theorem outbound_routing_witness :
    sampleInbound.channel ≠ "system" ∧
    (processMessage stubEnv sampleInbound).outbound.channel = sampleInbound.channel ∧
    (processMessage stubEnv sampleInbound).outbound.chat_id = sampleInbound.chat_id :=
  ⟨by decide, (outbound_routing stubEnv sampleInbound).1 (by decide)⟩

/-- C2: the turn-taking loop makes at most `max_iterations` provider calls
for every inbound message; when the provider always requests more tool
calls, the bound is reached exactly and the final content is the fixed
fallback string of the corresponding processing branch. -/
theorem provider_call_bound (env : AgentEnv) (msg : InboundMessage) :
    (processMessage env msg).provider_calls ≤ env.max_iterations ∧
    ((∀ ms, (env.provider ms).has_tool_calls = true) →
      (processMessage env msg).provider_calls = env.max_iterations ∧
      (processMessage env msg).outbound.content =
        (if msg.channel == "system" then "Background task completed."
         else "I've completed processing but have no response to give.")) := by
  by_cases hb : (msg.channel == "system") = true
  · constructor
    · simp only [processMessage, hb, if_true, processSystemMessage]
      simpa using agentIterate_calls_le env env.max_iterations _ 0
    · intro hp
      simp only [processMessage, hb, if_true, processSystemMessage,
        agentIterate_exhaust env hp env.max_iterations _ 0]
      simp
  · constructor
    · simp only [processMessage, hb, Bool.false_eq_true, if_false]
      simpa using agentIterate_calls_le env env.max_iterations _ 0
    · intro hp
      simp only [processMessage, hb, Bool.false_eq_true, if_false,
        agentIterate_exhaust env hp env.max_iterations _ 0]
      simp

/-- C2 witness: with a provider that never stops calling tools and a bound
of 3, exactly 3 provider calls happen and the fallback string is sent. -/
theorem provider_call_bound_witness :
    (∀ ms, (loopingEnv.provider ms).has_tool_calls = true) ∧
    (processMessage loopingEnv sampleInbound).provider_calls = loopingEnv.max_iterations ∧
    (processMessage loopingEnv sampleInbound).outbound.content =
      "I've completed processing but have no response to give." := by
  have hp : ∀ ms, (loopingEnv.provider ms).has_tool_calls = true := fun _ => rfl
  have h := (provider_call_bound loopingEnv sampleInbound).2 hp
  exact ⟨hp, h.1, by simpa using h.2⟩

/-- C6 (amended): for every non-system inbound the loop copies the inbound
metadata onto the outbound unchanged — in particular a superset; the
system-message branch, by contrast, sends empty metadata (see the
counterexample). -/
theorem metadata_passthrough (env : AgentEnv) (msg : InboundMessage)
    (h : msg.channel ≠ "system") :
    (processMessage env msg).outbound.metadata = msg.metadata ∧
    ∀ kv ∈ msg.metadata, kv ∈ (processMessage env msg).outbound.metadata := by
  have hb : (msg.channel == "system") = false := by simpa using h
  constructor
  · simp [processMessage, hb]
  · intro kv hkv
    simpa [processMessage, hb] using hkv

/-- C6 witness: metadata of a concrete non-system inbound is passed
through. -/
theorem metadata_passthrough_witness :
    sampleInbound.channel ≠ "system" ∧
    (processMessage stubEnv sampleInbound).outbound.metadata = sampleInbound.metadata :=
  ⟨by decide, (metadata_passthrough stubEnv sampleInbound (by decide)).1⟩

/-- C6 counterexample: a system inbound carrying metadata produces an
outbound whose metadata is empty, so the inbound's metadata entry is not
preserved — the claimed superset property fails on the system branch. -/
theorem metadata_dropped_for_system :
    ("thread_ts", Json.str "123") ∈ systemInbound.metadata ∧
    ("thread_ts", Json.str "123") ∉ (processMessage stubEnv systemInbound).outbound.metadata := by
  have hmeta : (processMessage stubEnv systemInbound).outbound.metadata = [] := rfl
  constructor
  · simp [systemInbound]
  · simp [hmeta]

/-- C10: a system message whose `chat_id` contains no `:` falls back to
origin channel `"cli"` and the whole `chat_id`: the session used is
`cli:<chat_id>` and the reply targets channel `"cli"` with that chat
id. -/
theorem system_chatid_fallback (env : AgentEnv) (msg : InboundMessage)
    (h1 : msg.channel = "system") (h2 : containsChar msg.chat_id ':' = false) :
    (processMessage env msg).session_key = "cli:" ++ msg.chat_id ∧
    (processMessage env msg).outbound.channel = "cli" ∧
    (processMessage env msg).outbound.chat_id = msg.chat_id := by
  have hb : (msg.channel == "system") = true := by simp [h1]
  have hcli : ("cli" ++ ":" : String) = "cli:" := rfl
  refine ⟨?_, ?_, ?_⟩ <;>
    simp [processMessage, hb, processSystemMessage, h2, hcli]

/-- C10 witness: a concrete colon-free system message is routed to
`cli`. -/
theorem system_chatid_fallback_witness :
    systemPlainInbound.channel = "system" ∧
    containsChar systemPlainInbound.chat_id ':' = false ∧
    (processMessage stubEnv systemPlainInbound).session_key = "cli:direct" ∧
    (processMessage stubEnv systemPlainInbound).outbound.channel = "cli" := by
  have hc : containsChar systemPlainInbound.chat_id ':' = false := rfl
  have h := system_chatid_fallback stubEnv systemPlainInbound rfl hc
  exact ⟨rfl, hc, h.1, h.2.1⟩

theorem is_allowed_iff (allow_from : List String) (sender_id : String) :
    is_allowed allow_from sender_id = true ↔
      (allow_from = [] ∨ sender_id ∈ allow_from ∨
        (containsChar sender_id '|' = true ∧
          ∃ p ∈ splitChar sender_id '|', p ≠ "" ∧ p ∈ allow_from)) := by
  unfold is_allowed
  split_ifs with he hc hp
  · simp [List.isEmpty_iff.mp he]
  · have : sender_id ∈ allow_from := List.mem_of_elem_eq_true hc
    simp [this]
  · have hne : allow_from ≠ [] := by
      intro h
      rw [h] at he
      simp at he
    have hnm : sender_id ∉ allow_from := fun h => hc (List.elem_eq_true_of_mem h)
    simp only [List.any_eq_true, Bool.and_eq_true, bne_iff_ne, ne_eq]
    constructor
    · rintro ⟨p, hpmem, hpne, hpc⟩
      exact Or.inr (Or.inr ⟨hp, p, hpmem, hpne, List.mem_of_elem_eq_true hpc⟩)
    · rintro (h | h | ⟨_, p, hpmem, hpne, hpc⟩)
      · exact absurd h hne
      · exact absurd h hnm
      · exact ⟨p, hpmem, hpne, List.elem_eq_true_of_mem hpc⟩
  · have hne : allow_from ≠ [] := by
      intro h
      rw [h] at he
      simp at he
    have hnm : sender_id ∉ allow_from := fun h => hc (List.elem_eq_true_of_mem h)
    simp [hne, hnm, hp]

/-- C5: the base channel helper publishes an `InboundMessage` iff the
allow-list is empty, or the sender id is listed, or the sender id is a
`|`-joined composite with some non-empty listed component; a disallowed
sender never gets a message enqueued, and a published message carries the
sender id unchanged. -/
theorem allowlist_gate (allow_from : List String)
    (channelName sender_id chat_id content : String)
    (media : Option (List String)) (metadata : Option (List (String × Json))) :
    (handle_message allow_from channelName sender_id chat_id content media metadata ≠ none ↔
      (allow_from = [] ∨ sender_id ∈ allow_from ∨
        (containsChar sender_id '|' = true ∧
          ∃ p ∈ splitChar sender_id '|', p ≠ "" ∧ p ∈ allow_from))) ∧
    (∀ m, handle_message allow_from channelName sender_id chat_id content media metadata
        = some m → m.sender_id = sender_id) := by
  constructor
  · rw [← is_allowed_iff]
    unfold handle_message
    by_cases ha : is_allowed allow_from sender_id = true <;> simp [ha]
  · intro m hm
    unfold handle_message at hm
    by_cases ha : is_allowed allow_from sender_id = true
    · rw [ha] at hm
      simp at hm
      rw [← hm]
    · simp [ha] at hm

/-- C5 witness: a listed sender is published, an unlisted one is not. -/
theorem allowlist_gate_witness :
    handle_message ["alice"] "telegram" "alice" "42" "hi" none none ≠ none ∧
    handle_message ["alice"] "telegram" "bob" "42" "hi" none none = none := by
  constructor
  · exact (allowlist_gate ["alice"] "telegram" "alice" "42" "hi" none none).1.mpr
      (Or.inr (Or.inl (by simp)))
  · rfl

theorem heartbeatScan_eq_false_iff (ls : List String) :
    heartbeatScan ls = false ↔ ∃ l ∈ ls, heartbeatActionableLine l = true := by
  induction ls with
  | nil => simp [heartbeatScan]
  | cons l ls ih =>
    by_cases h : (pyStrip l == "" || pyStartsWith (pyStrip l) "#" ||
        pyStartsWith (pyStrip l) "<!--" || skipPatterns.contains (pyStrip l)) = true
    · have hact : heartbeatActionableLine l = false := by
        simp only [heartbeatActionableLine, h, Bool.not_true]
      simp only [heartbeatScan, h, if_true, ih]
      simp [hact]
    · have hb : (pyStrip l == "" || pyStartsWith (pyStrip l) "#" ||
          pyStartsWith (pyStrip l) "<!--" || skipPatterns.contains (pyStrip l)) = false := by
        revert h
        cases pyStrip l == "" || pyStartsWith (pyStrip l) "#" ||
          pyStartsWith (pyStrip l) "<!--" || skipPatterns.contains (pyStrip l) <;> simp
      have hact : heartbeatActionableLine l = true := by
        simp only [heartbeatActionableLine, hb, Bool.not_false]
      simp only [heartbeatScan, hb, Bool.false_eq_true, if_false]
      simp [hact]

/-- C8: a heartbeat tick injects the fixed heartbeat prompt to the agent
iff the workspace heartbeat file contains at least one line that (after
stripping) is non-blank, not a comment (a `#` heading or an HTML comment)
and not a bare checkbox marker; otherwise the tick does nothing (the tick
result is `none`, and its only other value is `some HEARTBEAT_PROMPT`). -/
theorem heartbeat_tick_iff (content : Option String) :
    heartbeatTick content = some HEARTBEAT_PROMPT ↔
      ∃ l ∈ heartbeatLines content, heartbeatActionableLine l = true := by
  unfold heartbeatTick isHeartbeatEmpty heartbeatLines
  cases content with
  | none => simp
  | some c =>
    by_cases hc : (c == "") = true
    · have hceq : c = "" := by simpa using hc
      subst hceq
      simp [splitChar, splitCharList, heartbeatActionableLine, pyStrip]
    · have hcb : (c == "") = false := by
        revert hc
        cases c == "" <;> simp
      simp only [hcb, Bool.false_eq_true, if_false]
      rw [← heartbeatScan_eq_false_iff]
      cases hscan : heartbeatScan (splitChar c '\n') <;> simp [hscan]

theorem foldl_charReplace (cs : List Char) (s : String) :
    cs.foldl (fun acc c => charReplace acc c) s
      = String.mk (s.data.map fun d =>
          cs.foldl (fun e c => if e = c then '_' else e) d) := by
  induction cs generalizing s with
  | nil => simp [List.foldl]
  | cons c cs ih =>
    simp only [List.foldl]
    rw [ih (charReplace s c)]
    simp only [charReplace, List.map_map]
    rfl

theorem replaceAll_pointwise (d : Char) :
    unsafeChars.foldl (fun e c => if e = c then '_' else e) (if d = ':' then '_' else d)
      = (if unsafeChars.contains d then '_' else d) := by
  by_cases h1 : d = '<'
  · subst h1; rfl
  by_cases h2 : d = '>'
  · subst h2; rfl
  by_cases h3 : d = ':'
  · subst h3; rfl
  by_cases h4 : d = '"'
  · subst h4; rfl
  by_cases h5 : d = '/'
  · subst h5; rfl
  by_cases h6 : d = '\\'
  · subst h6; rfl
  by_cases h7 : d = '|'
  · subst h7; rfl
  by_cases h8 : d = '?'
  · subst h8; rfl
  by_cases h9 : d = '*'
  · subst h9; rfl
  simp [unsafeChars, List.foldl, h1, h2, h3, h4, h5, h6, h7, h8, h9]

/-- C9 (amended): the on-disk session file name is obtained by replacing
each of `<>:"/\|?*` (the `:` via `key.replace(":", "_")`, the rest via
`safe_filename`) with an underscore — not by removing them — then
stripping surrounding whitespace and appending `.jsonl`. -/
theorem session_filename_replaced (key : String) :
    sessionFileName key = replacedFileName key := by
  unfold sessionFileName replacedFileName safe_filename
  rw [foldl_charReplace unsafeChars (charReplace key ':')]
  have hdata : (charReplace key ':').data
      = key.data.map (fun d => if d = ':' then '_' else d) := rfl
  rw [hdata, List.map_map]
  have hfun : ((fun d => unsafeChars.foldl (fun e c => if e = c then '_' else e) d) ∘
        fun d => if d = ':' then '_' else d)
      = fun d => if unsafeChars.contains d then '_' else d := by
    funext d
    simp only [Function.comp_apply]
    exact replaceAll_pointwise d
  rw [hfun]

/-- C9 counterexample: for the key `a?b` the code produces `a_b.jsonl`
(the unsafe character becomes an underscore), while the claim's
strip-the-characters reading produces `ab.jsonl`. -/
theorem session_filename_cex :
    sessionFileName "a?b" = "a_b.jsonl" ∧
    specSessionFileName "a?b" = "ab.jsonl" ∧
    ("a_b.jsonl" : String) ≠ "ab.jsonl" := by
  refine ⟨rfl, rfl, by decide⟩

theorem foldlM_loadStep_plain (msgs : List Json)
    (h : msgs.all isPlainMessageRecord = true) :
    ∀ (accM : List Json) (md : Json) (ca : Option DateTime),
      List.foldlM loadStep (accM, md, ca) msgs = some (accM ++ msgs, md, ca) := by
  induction msgs with
  | nil => intro accM md ca; simp
  | cons m ms ih =>
    intro accM md ca
    simp only [List.all_cons, Bool.and_eq_true] at h
    obtain ⟨hm, hms⟩ := h
    have hstep : loadStep (accM, md, ca) m = some (accM ++ [m], md, ca) := by
      cases m
      case obj kvs =>
        unfold loadStep
        cases hget : jsonGet kvs "_type" with
        | none => simp [hget]
        | some v =>
          have hne : pyEq v (Json.str "metadata") = false := by
            have hm2 : (match jsonGet kvs "_type" with
                | some v => !pyEq v (Json.str "metadata")
                | none => true) = true := by
              simpa [isPlainMessageRecord] using hm
            rw [hget] at hm2
            simpa using hm2
          simp [hget, hne]
      all_goals simp [isPlainMessageRecord] at hm
    rw [List.foldlM_cons, hstep]
    simp only [Option.bind_eq_bind, Option.some_bind]
    rw [ih hms (accM ++ [m]) md ca]
    simp

/-- C7 (amended): session persistence round-trips losslessly — modulo the
`created_at`/`updated_at` timestamps on the leading metadata record — for
every session whose message records do not themselves carry
`"_type": "metadata"`; in particular the message lines are reproduced
identically.  (A message record with `"_type": "metadata"` is re-read as a
metadata line and lost: see the counterexample.) -/
theorem session_roundtrip (s : Session) (now : DateTime)
    (h : s.messages.all isPlainMessageRecord = true) :
    ∃ s2, SessionManager.load s.key (SessionManager.save s) now = some s2 ∧
      sameModuloTimestamps (SessionManager.save s2) (SessionManager.save s) := by
  have hmeta : loadStep ([], Json.obj [], none)
      (Json.obj [("_type", .str "metadata"), ("created_at", .str s.created_at.iso),
        ("updated_at", .str s.updated_at.iso), ("metadata", s.metadata)])
      = some ([], s.metadata,
          if s.created_at.iso = "" then none else some ⟨s.created_at.iso⟩) := by
    unfold loadStep
    by_cases hiso : s.created_at.iso = "" <;>
      simp [jsonGet, List.find?, jsonTruthy, pyEq, hiso]
  refine ⟨⟨s.key, s.messages,
    Option.getD (if s.created_at.iso = "" then (none : Option DateTime)
      else some ⟨s.created_at.iso⟩) now, now, s.metadata⟩, ?_, ?_⟩
  · unfold SessionManager.load SessionManager.save
    rw [List.foldlM_cons, hmeta]
    simp only [Option.bind_eq_bind, Option.some_bind]
    rw [foldlM_loadStep_plain s.messages h [] s.metadata _]
    simp
  · unfold SessionManager.save sameModuloTimestamps
    refine ⟨?_, rfl⟩
    unfold stripTimestampFields
    simp

/-- C7 witness: a concrete session with one plain message round-trips
modulo the metadata-record timestamps. -/
theorem session_roundtrip_witness :
    plainSession.messages.all isPlainMessageRecord = true ∧
    ∃ s2, SessionManager.load plainSession.key (SessionManager.save plainSession)
        sampleDateTime = some s2 ∧
      sameModuloTimestamps (SessionManager.save s2) (SessionManager.save plainSession) :=
  ⟨rfl, session_roundtrip plainSession sampleDateTime rfl⟩

/-- C7 counterexample: a session holding one message record whose `_type`
entry is the string `"metadata"` does not round-trip — the re-saved file
has no message line at all, so the message sequence is not reproduced
(and no choice of timestamps can make the files agree). -/
theorem session_roundtrip_cex :
    (SessionManager.load trickySession.key (SessionManager.save trickySession)
        sampleDateTime).map SessionManager.save
      = some [Json.obj [("_type", Json.str "metadata"),
          ("created_at", Json.str "2024-01-01T00:00:00"),
          ("updated_at", Json.str "2024-01-01T00:00:00"),
          ("metadata", Json.obj [])]] ∧
    ¬ sameModuloTimestamps
        [Json.obj [("_type", Json.str "metadata"),
          ("created_at", Json.str "2024-01-01T00:00:00"),
          ("updated_at", Json.str "2024-01-01T00:00:00"),
          ("metadata", Json.obj [])]]
        (SessionManager.save trickySession) := by
  constructor
  · rfl
  · intro hcontra
    have : ([] : List Json) = [Json.obj [("_type", Json.str "metadata")]] :=
      hcontra.2
    simp at this

theorem enumErrors_eq_nil (val : Json) (s : Schema) (label : String) :
    enumErrors val s label = [] ↔ enumOk val s = true := by
  unfold enumErrors enumOk
  cases s.enumOpt with
  | none => simp
  | some es => by_cases h : es.any (fun e => pyEq e val) = true <;> simp [h]

theorem rangeErrors_eq_nil (val : Json) (s : Schema) (label : String) :
    rangeErrors val s label = [] ↔ rangeOk val s = true := by
  unfold rangeErrors rangeOk
  by_cases hg : (s.typeOpt == some "integer" || s.typeOpt == some "number") = true
  · simp only [hg, if_true, List.append_eq_nil, Bool.and_eq_true]
    refine and_congr ?_ ?_
    · cases s.minimumOpt with
      | none => simp
      | some m =>
        by_cases h : (ratOfNum val).getD 0 < m
        · simp [h, not_le.mpr h]
        · simp [h, not_lt.mp h]
    · cases s.maximumOpt with
      | none => simp
      | some m =>
        by_cases h : m < (ratOfNum val).getD 0
        · simp [h, not_le.mpr h]
        · simp [h, not_lt.mp h]
  · have hb : (s.typeOpt == some "integer" || s.typeOpt == some "number") = false := by
      revert hg
      cases s.typeOpt == some "integer" || s.typeOpt == some "number" <;> simp
    simp [hb]

theorem lengthErrors_eq_nil (val : Json) (s : Schema) (label : String) :
    lengthErrors val s label = [] ↔ lengthOk val s = true := by
  unfold lengthErrors lengthOk
  by_cases hg : (s.typeOpt == some "string") = true
  · simp only [hg, if_true]
    cases val with
    | str sv =>
      simp only [List.append_eq_nil, Bool.and_eq_true]
      refine and_congr ?_ ?_
      · cases s.minLengthOpt with
        | none => simp
        | some m =>
          by_cases h : (sv.length : Int) < m
          · simp [h, not_le.mpr h]
          · simp [h, not_lt.mp h]
      · cases s.maxLengthOpt with
        | none => simp
        | some m =>
          by_cases h : m < (sv.length : Int)
          · simp [h, not_le.mpr h]
          · simp [h, not_lt.mp h]
    | null => simp
    | bool b => simp
    | int n => simp
    | num q => simp
    | arr xs => simp
    | obj kvs => simp
  · have hb : (s.typeOpt == some "string") = false := by
      revert hg
      cases s.typeOpt == some "string" <;> simp
    simp [hb]

theorem requiredErrors_eq_nil (kvs : List (String × Json)) (s : Schema) (path : String) :
    requiredErrors kvs s path = [] ↔ requiredOk kvs s = true := by
  unfold requiredErrors requiredOk
  rw [List.filterMap_eq_nil_iff, List.all_eq_true]
  constructor
  · intro h k hk
    have hx := h k hk
    by_cases hq : kvs.any (fun kv => kv.1 == k) = true
    · exact hq
    · simp [hq] at hx
  · intro h k hk
    simp [h k hk]

set_option maxHeartbeats 1600000

mutual

theorem pyValidate_eq_nil_iff (val : Json) (s : Schema) (path : String) :
    pyValidate val s path = [] ↔ pySat val s = true := by
  unfold pyValidate
  unfold pySat
  by_cases htype : (inTypeMap s.typeOpt && !(jsonIsinstance (s.typeOpt.getD "") val)) = true
  · obtain ⟨h1, h2⟩ := Bool.and_eq_true_iff.mp htype
    have hIs : jsonIsinstance (s.typeOpt.getD "") val = false := by
      simpa using h2
    rw [if_pos htype, h1, hIs]
    simp only [Bool.not_true, Bool.false_or, Bool.false_and]
    simp
  · have hfirst : (!(inTypeMap s.typeOpt) || jsonIsinstance (s.typeOpt.getD "") val) = true := by
      revert htype
      cases inTypeMap s.typeOpt <;> cases jsonIsinstance (s.typeOpt.getD "") val <;> simp
    rw [if_neg htype, hfirst]
    simp only [Bool.true_and, List.append_eq_nil, Bool.and_eq_true]
    refine and_congr (and_congr (and_congr (and_congr
      (enumErrors_eq_nil val s _) (rangeErrors_eq_nil val s _))
      (lengthErrors_eq_nil val s _)) ?_) ?_
    · by_cases hobj : (s.typeOpt == some "object") = true
      · simp only [hobj, if_true]
        cases val with
        | obj kvs =>
          simp only [List.append_eq_nil, Bool.and_eq_true]
          exact and_congr (requiredErrors_eq_nil kvs s path)
            (pyValidateFields_eq_nil_iff kvs s.propsList path)
        | null => simp
        | bool b => simp
        | int n => simp
        | num q => simp
        | str sv => simp
        | arr xs => simp
      · have hB : (s.typeOpt == some "object") = false := by
          revert hobj
          cases s.typeOpt == some "object" <;> simp
        simp [hB]
    · by_cases harr : (s.typeOpt == some "array") = true
      · simp only [harr, if_true]
        cases hit : s.itemsOpt with
        | none => cases val <;> simp
        | some sub =>
          cases val with
          | arr xs => exact pyValidateItems_eq_nil_iff xs sub path 0
          | null => simp
          | bool b => simp
          | int n => simp
          | num q => simp
          | str sv => simp
          | obj kvs => simp
      · have hB : (s.typeOpt == some "array") = false := by
          revert harr
          cases s.typeOpt == some "array" <;> simp
        simp [hB]

theorem pyValidateFields_eq_nil_iff (kvs : List (String × Json))
    (props : List (String × Schema)) (path : String) :
    pyValidateFields kvs props path = [] ↔ pySatFields kvs props = true := by
  cases kvs with
  | nil => simp [pyValidateFields, pySatFields]
  | cons kv rest =>
    obtain ⟨k, v⟩ := kv
    simp only [pyValidateFields, pySatFields]
    cases hf : props.find? (fun p => p.1 == k) with
    | none =>
      simp only [hf, List.nil_append, Bool.true_and]
      exact pyValidateFields_eq_nil_iff rest props path
    | some p =>
      simp only [hf, List.append_eq_nil, Bool.and_eq_true]
      exact and_congr (pyValidate_eq_nil_iff v p.2 (childPath path k))
        (pyValidateFields_eq_nil_iff rest props path)

theorem pyValidateItems_eq_nil_iff (xs : List Json) (sub : Schema) (path : String) (i : Nat) :
    pyValidateItems xs sub path i = [] ↔ pySatItems xs sub = true := by
  cases xs with
  | nil => simp [pyValidateItems, pySatItems]
  | cons x rest =>
    simp only [pyValidateItems, pySatItems, List.append_eq_nil, Bool.and_eq_true]
    exact and_congr (pyValidate_eq_nil_iff x sub (indexPath path i))
      (pyValidateItems_eq_nil_iff rest sub path (i + 1))

end

set_option maxHeartbeats 400000

/-- C3 (amended): `validate_params` returns the empty error list exactly
when the parameter object satisfies every constraint declared in the
tool's schema under the semantics Python implements: the declared-type
check uses `isinstance` — so a boolean counts as an integer and as a
number — and enum membership uses Python equality; all other constraints
(`minimum`/`maximum`, `minLength`/`maxLength`, `required`, recursive
properties and items) are as the claim states.  Equivalently, any
violated constraint yields at least one error.  The hypothesis is the
data-model invariant that tool schemas have root type `object`. -/
theorem validate_params_empty_iff (t : Tool) (params : List (String × Json))
    (hobj : (t.parameters.typeOpt).getD "object" = "object") :
    t.validate_params params = Except.ok [] ↔
      pySat (Json.obj params) t.parameters.withTypeObject = true := by
  unfold Tool.validate_params
  have hb : (((t.parameters.typeOpt).getD "object") != "object") = false := by
    simp [hobj]
  simp only [hb, Bool.false_eq_true, if_false, Except.ok.injEq]
  exact pyValidate_eq_nil_iff (Json.obj params) t.parameters.withTypeObject ""

/-- C3 witness: a well-formed call to the echo tool validates with no
errors. -/
theorem validate_params_empty_iff_witness :
    (echoTool.parameters.typeOpt).getD "object" = "object" ∧
    echoTool.validate_params [("text", Json.str "hi")] = Except.ok [] :=
  ⟨rfl, (validate_params_empty_iff echoTool [("text", Json.str "hi")] rfl).mpr rfl⟩

/-- C3 counterexample: passing the boolean `true` for a parameter declared
`integer` violates the declared-type constraint (and only that
constraint — the same object with `1` satisfies the whole schema), yet
`validate_params` returns no error: Python's `isinstance(True, int)` is
true. -/
theorem validator_accepts_bool_for_integer :
    intParamTool.validate_params [("x", Json.bool true)] = Except.ok [] ∧
    specSat (Json.obj [("x", Json.bool true)]) intParamSchema.withTypeObject = false ∧
    specSat (Json.obj [("x", Json.int 1)]) intParamSchema.withTypeObject = true :=
  ⟨rfl, rfl, rfl⟩

/-- C4: `ToolRegistry.execute` never raises (the embedding is a total
function into strings) and returns: the not-found string when no tool is
registered under the name; the invalid-parameters string when validation
reports errors — on that path the tool body is never evaluated (the match
in the embedding does not inspect `t.execute`); the execution-error
string when the tool body raises; and the tool body's result otherwise.
The hypothesis is the data-model invariant that registered schemas have
root type `object`. -/
theorem registry_execute_spec (reg : ToolRegistry) (name : String)
    (params : List (String × Json))
    (hobj : ∀ t ∈ reg.tools, (t.parameters.typeOpt).getD "object" = "object") :
    (reg.get name = none →
      reg.execute name params = "Error: Tool '" ++ name ++ "' not found") ∧
    (∀ t, reg.get name = some t →
      (t.validate_params params
        = Except.ok (pyValidate (Json.obj params) t.parameters.withTypeObject "")) ∧
      (∀ errs, t.validate_params params = Except.ok errs → errs ≠ [] →
        reg.execute name params =
          "Error: Invalid parameters for tool '" ++ name ++ "': " ++
            String.intercalate "; " errs) ∧
      (t.validate_params params = Except.ok [] →
        (∀ r, t.execute params = Except.ok r → reg.execute name params = r) ∧
        (∀ e, t.execute params = Except.error e →
          reg.execute name params = "Error executing " ++ name ++ ": " ++ e))) := by
  constructor
  · intro hnone
    unfold ToolRegistry.execute
    rw [hnone]
  · intro t hget
    refine ⟨?_, ?_, ?_⟩
    · have hmem : t ∈ reg.tools := by
        unfold ToolRegistry.get at hget
        exact List.mem_of_find?_eq_some hget
      unfold Tool.validate_params
      have hb : (((t.parameters.typeOpt).getD "object") != "object") = false := by
        simp [hobj t hmem]
      simp [hb]
    · intro errs herrs hne
      unfold ToolRegistry.execute
      rw [hget]
      dsimp only
      rw [herrs]
      have hie : errs.isEmpty = false := by
        cases errs with
        | nil => exact absurd rfl hne
        | cons e es => rfl
      simp [hie]
    · intro hempty
      constructor
      · intro r hr
        unfold ToolRegistry.execute
        rw [hget]
        dsimp only
        rw [hempty]
        simp [hr]
      · intro e hee
        unfold ToolRegistry.execute
        rw [hget]
        dsimp only
        rw [hempty]
        simp [hee]

/-- C4 witness: on a concrete registry, an unknown tool name yields the
not-found string and a missing required parameter yields the
invalid-parameters string. -/
theorem registry_execute_spec_witness :
    ToolRegistry.execute ⟨[echoTool]⟩ "missing" [] = "Error: Tool 'missing' not found" ∧
    ToolRegistry.execute ⟨[echoTool]⟩ "echo" []
      = "Error: Invalid parameters for tool 'echo': " ++
          String.intercalate "; " ["missing required text"] := by
  have hobj : ∀ t ∈ (⟨[echoTool]⟩ : ToolRegistry).tools,
      (t.parameters.typeOpt).getD "object" = "object" := by
    intro t ht
    simp only [List.mem_singleton] at ht
    subst ht
    rfl
  constructor
  · exact (registry_execute_spec ⟨[echoTool]⟩ "missing" [] hobj).1 rfl
  · exact (((registry_execute_spec ⟨[echoTool]⟩ "echo" [] hobj).2 echoTool rfl).2.1
      ["missing required text"] rfl (by simp))

end Nanobot
